import Mathlib

/-!
Verification development for the oracle-dba monitoring platform.

The Go source is shallowly embedded: database tables become lists of rows,
SQL queries become list functions (filter / join / sort), and the stateful
audit trail becomes explicit state passing (a `List AuditLog` threaded
through each operation).  Times are `Int` (Unix-style instants), UUIDs are
`String`, and Oracle `NUMBER` columns carrying megabyte sizes are `Rat`.
-/

deriving instance DecidableEq for Except

/-- Generic descending order by an integer-like key; used to embed
`ORDER BY col DESC` clauses. -/
def keyDesc {α β : Type} [LinearOrder β] (f : α → β) (a b : α) : Prop :=
  f b ≤ f a

instance {α β : Type} [LinearOrder β] (f : α → β) : DecidableRel (keyDesc f) :=
  fun a b => inferInstanceAs (Decidable (f b ≤ f a))

instance {α β : Type} [LinearOrder β] (f : α → β) : IsTotal α (keyDesc f) :=
  ⟨fun a b => le_total (f b) (f a)⟩

instance {α β : Type} [LinearOrder β] (f : α → β) : IsTrans α (keyDesc f) :=
  ⟨fun _ _ _ h1 h2 => le_trans h2 h1⟩

/-- Generic ascending order by a key; used to embed `ORDER BY col` clauses. -/
def keyAsc {α β : Type} [LinearOrder β] (f : α → β) (a b : α) : Prop :=
  f a ≤ f b

instance {α β : Type} [LinearOrder β] (f : α → β) : DecidableRel (keyAsc f) :=
  fun a b => inferInstanceAs (Decidable (f a ≤ f b))

instance {α β : Type} [LinearOrder β] (f : α → β) : IsTotal α (keyAsc f) :=
  ⟨fun a b => le_total (f a) (f b)⟩

instance {α β : Type} [LinearOrder β] (f : α → β) : IsTrans α (keyAsc f) :=
  ⟨fun _ _ _ h1 h2 => le_trans h1 h2⟩

/-! ## Auth data model (src/unnamed/part_013, DB schema in src/unnamed/part_010) -/

/-- `repository.Permission` (auth.permissions row). -/
structure Permission where
  id : String
  code : String
  description : String
deriving DecidableEq

/-- `repository.Role` (auth.roles row); `createdAt` is an instant. -/
structure Role where
  id : String
  name : String
  description : String
  createdAt : Int
deriving DecidableEq

/-- The auth schema state: the three tables the permission queries join.
`userRoles` holds (user_id, role_id) pairs, `rolePermissions` holds
(role_id, permission_id) pairs. -/
structure AuthDB where
  permissions : List Permission
  roles : List Role
  userRoles : List (String × String)
  rolePermissions : List (String × String)
deriving DecidableEq

/-- `permissionRepository.GetPermissionsByUserID`
(src/internal/repository/permission_repo.go:130):
`SELECT DISTINCT p.* FROM permissions p JOIN role_permissions rp
 JOIN user_roles ur WHERE ur.user_id = $1 ORDER BY p.code`.
The permissions table is keyed by id, so `DISTINCT` reduces to filtering
the table; `ORDER BY p.code` is the ascending sort. -/
def getPermissionsByUserID (db : AuthDB) (userID : String) : List Permission :=
  List.insertionSort (keyAsc Permission.code)
    (db.permissions.filter (fun p =>
      db.rolePermissions.any (fun rp =>
        rp.2 == p.id && db.userRoles.any (fun ur =>
          ur.1 == userID && ur.2 == rp.1))))

/-- `userRoleRepository.GetRolesByUserID`: the roles joined through
auth.user_roles for the given user. -/
def getRolesByUserID (db : AuthDB) (userID : String) : List Role :=
  db.roles.filter (fun r =>
    db.userRoles.any (fun ur => ur.1 == userID && ur.2 == r.id))

/-! ## Audit log model (src/unnamed/part_013, src/unnamed/part_008) -/

/-- `repository.AuditLog` restricted to the fields the embedded services
set; fields a Go struct literal leaves unset default to their zero value. -/
structure AuditLog where
  id : String := ""
  userID : Option String := none
  username : String := ""
  action : String := ""
  resourceType : String := ""
  resourceID : Option String := none
  oracleSchema : Option String := none
  status : String := ""
  errorMessage : Option String := none
  timestamp : Int := 0
deriving DecidableEq

/-! ## RBAC service (src/backend/internal/service/rbac_service.go) -/

/-- `RBACService.HasPermission` (rbac_service.go:35): linear scan of the
user's permission rows for the code. -/
def hasPermission (db : AuthDB) (userID : String) (permissionCode : String) : Bool :=
  (getPermissionsByUserID db userID).any (fun perm => perm.code == permissionCode)

/-- `RBACService.HasAnyPermission` (rbac_service.go:51): builds the set of
the user's codes, then returns true at the first requested code found. -/
def hasAnyPermission (db : AuthDB) (userID : String) (permissionCodes : List String) : Bool :=
  let permMap := (getPermissionsByUserID db userID).map Permission.code
  permissionCodes.any (fun code => permMap.contains code)

/-- `RBACService.HasAllPermissions` (rbac_service.go:72): returns false at
the first requested code the user lacks, true after the loop. -/
def hasAllPermissions (db : AuthDB) (userID : String) (permissionCodes : List String) : Bool :=
  let permMap := (getPermissionsByUserID db userID).map Permission.code
  permissionCodes.all (fun code => permMap.contains code)

/-- `RBACService.auditAccessDenied` (rbac_service.go:202): the entry the
deny path hands to `auditRepo.Create` — status DENIED, resource type
PERMISSION, the missing permission in `ErrorMessage`, `ResourceID` unset. -/
def auditAccessDenied (userID : String) (permission : String) : AuditLog :=
  { userID := some userID
    username := userID
    action := "ACCESS_DENIED"
    resourceType := "PERMISSION"
    status := "DENIED"
    errorMessage := some permission }

/-- `RBACService.CheckAccess` (rbac_service.go:159), the RBAC enforcement
point, with the audit trail passed as explicit state: on a missing
permission it appends exactly one DENIED entry and returns the
"access denied" error. -/
def checkAccess (db : AuthDB) (userID : String) (requiredPermission : String)
    (trail : List AuditLog) : Except String Unit × List AuditLog :=
  if hasPermission db userID requiredPermission then
    (Except.ok (), trail)
  else
    (Except.error ("access denied: missing permission " ++ requiredPermission),
     trail ++ [auditAccessDenied userID requiredPermission])

/-! ## HTTP middleware guards (src/internal/middleware/auth_middleware.go) -/

/-- `middleware.UserContext`: the identity a validated token put in the
request context. -/
structure UserContext where
  userID : String
  username : String
  roles : List String
  permissions : List String
deriving DecidableEq

/-- The middleware error taxonomy: `AuthError` vs `AuthorizationError`
(auth_middleware.go:176 and :185). -/
inductive MwError where
  | auth (message : String)
  | authz (message : String) (permission : String) (role : String)
deriving DecidableEq

/-- `middleware.RequireAuth` (auth_middleware.go:106): the request context
either carries a user or the guard fails with an authentication error. -/
def requireAuth (ctx : Option UserContext) : Except MwError UserContext :=
  match ctx with
  | none => Except.error (MwError.auth "authentication required")
  | some user => Except.ok user

/-- `middleware.RequirePermission` (auth_middleware.go:115): linear scan of
the token's permission list. -/
def requirePermission (ctx : Option UserContext) (permission : String) :
    Except MwError Unit :=
  match requireAuth ctx with
  | Except.error e => Except.error e
  | Except.ok user =>
    if user.permissions.any (fun perm => perm == permission) then
      Except.ok ()
    else
      Except.error (MwError.authz "insufficient permissions" permission "")

/-- `middleware.RequireAnyPermission` (auth_middleware.go:134): builds the
user's permission set, then returns nil at the first requested permission
present; the empty request list falls through to the deny. -/
def requireAnyPermission (ctx : Option UserContext) (permissions : List String) :
    Except MwError Unit :=
  match requireAuth ctx with
  | Except.error e => Except.error e
  | Except.ok user =>
    let userPerms := user.permissions
    if permissions.any (fun permission => userPerms.contains permission) then
      Except.ok ()
    else
      Except.error
        (MwError.authz "insufficient permissions" (String.intercalate ", " permissions) "")

/-! ## Token Service (src/backend/internal/service/auth_service.go) -/

/-- `service.JWTClaims` (auth_service.go:212) together with the registered
claims the service sets (`ExpiresAt`, `IssuedAt`, `Issuer`, `Subject`). -/
structure JWTClaims where
  userID : String
  username : String
  roles : List String
  permissions : List String
  expiresAt : Int
  issuedAt : Int
  issuer : String
  subject : String
deriving DecidableEq

/-- JWT signing methods relevant to the service: HS256 (the method
`generateJWT` uses), any other HMAC variant, and non-HMAC methods that the
`ValidateToken` keyfunc rejects. -/
inductive SigningMethod where
  | hs256
  | otherHMAC
  | nonHMAC
deriving DecidableEq

/-- An HMAC value is modelled as an ideal MAC: the pair of the key and the
signed payload, so two MACs agree exactly when both key and payload do. -/
structure MacValue where
  key : String
  payload : JWTClaims
deriving DecidableEq

/-- Idealised `HMAC-SHA` signing over the encoded claims. -/
def hmacSign (secret : String) (claims : JWTClaims) : MacValue :=
  { key := secret, payload := claims }

/-- A signed token as produced by `jwt.NewWithClaims` + `SignedString`:
header method, claims payload, signature. -/
structure SignedToken where
  method : SigningMethod
  claims : JWTClaims
  signature : MacValue
deriving DecidableEq

/-- `AuthService.generateJWT` (auth_service.go:221): extracts role names
and permission codes, builds the claims, signs with HS256. -/
def generateJWT (jwtSecret : String) (jwtIssuer : String) (userID : String)
    (username : String) (roles : List Role) (permissions : List Permission)
    (expiresAt : Int) (now : Int) : SignedToken :=
  let roleNames := roles.map Role.name
  let permCodes := permissions.map Permission.code
  let claims : JWTClaims :=
    { userID := userID
      username := username
      roles := roleNames
      permissions := permCodes
      expiresAt := expiresAt
      issuedAt := now
      issuer := jwtIssuer
      subject := username }
  { method := SigningMethod.hs256
    claims := claims
    signature := hmacSign jwtSecret claims }

/-- The token-validation error kinds: `jwt.ErrTokenExpired` stays
distinguishable through the `fmt.Errorf("invalid token: %w", err)` wrap,
so expiry is a separate constructor from the malformed/bad-signature
case. -/
inductive TokenError where
  | invalid (message : String)
  | expired
deriving DecidableEq

/-- `AuthService.ValidateToken` (auth_service.go:190) including the
golang-jwt v5 library behaviour it delegates to: the keyfunc rejects
non-HMAC methods, the signature is verified against the configured
secret, and the registered-claims validator requires `now < expiresAt`
(reporting `jwt.ErrTokenExpired` otherwise). -/
def validateToken (jwtSecret : String) (now : Int) (tok : SignedToken) :
    Except TokenError JWTClaims :=
  match tok.method with
  | SigningMethod.nonHMAC => Except.error (TokenError.invalid "unexpected signing method")
  | _ =>
    if tok.signature = hmacSign jwtSecret tok.claims then
      if now < tok.claims.expiresAt then
        Except.ok tok.claims
      else
        Except.error TokenError.expired
    else
      Except.error (TokenError.invalid "signature is invalid")

/-- The token-issuing tail of `AuthService.Login` (auth_service.go:56),
after the credential checks: fetch roles and permissions for the user,
set `expiresAt := now + jwtExpiration`, generate the JWT. -/
def loginIssue (db : AuthDB) (jwtSecret : String) (jwtIssuer : String)
    (jwtExpiration : Int) (now : Int) (userID : String) (username : String) :
    SignedToken × Int :=
  let roles := getRolesByUserID db userID
  let permissions := getPermissionsByUserID db userID
  let expiresAt := now + jwtExpiration
  (generateJWT jwtSecret jwtIssuer userID username roles permissions expiresAt now,
   expiresAt)

/-! ## Monitoring Collector (src/internal/repository/permission_repo.go,
service part: `OracleService`) -/

/-- `service.OracleSession` (the scan target of the session queries). -/
structure OracleSession where
  sid : Int
  serial : Int
  username : Option String := none
  schemaName : Option String := none
  osUser : Option String := none
  machine : Option String := none
  program : Option String := none
  status : String := ""
  sqlID : Option String := none
  sqlText : Option String := none
  logonTime : Option Int := none
  lastCallET : Int := 0
  blockingSession : Option Int := none
  waitClass : Option String := none
  event : Option String := none
  secondsInWait : Option Int := none
deriving DecidableEq

/-- `service.BlockingSession` (the scanned blocking-relationship row). -/
structure BlockingSession where
  blockingSID : Int
  blockingSerial : Int
  blockingUser : Option String := none
  blockingSchema : Option String := none
  blockingStatus : String := ""
  blockingSQLID : Option String := none
  blockingSQLText : Option String := none
  blockedSID : Int
  blockedSerial : Int
  blockedUser : Option String := none
  blockedSchema : Option String := none
  blockedWaitClass : Option String := none
  blockedEvent : Option String := none
  blockedDurationSeconds : Int
  blockedSQLText : Option String := none
deriving DecidableEq

/-- `service.Tablespace` (the scanned tablespace row); sizes in MB. -/
structure Tablespace where
  name : String
  totalSizeMB : Rat
  usedSizeMB : Rat
  freeSizeMB : Rat
  usagePercentage : Rat
  status : String
  contents : String
  datafileCount : Int
deriving DecidableEq

/-- `service.SQLPerformance` (the scanned top-SQL row). -/
structure SQLPerformance where
  sqlID : String
  sqlText : Option String := none
  parsingSchema : Option String := none
  executions : Int := 0
  elapsedSeconds : Rat := 0
  avgElapsedSeconds : Rat := 0
  cpuSeconds : Rat := 0
  diskReads : Int := 0
  bufferGets : Int := 0
  rowsProcessed : Int := 0
  firstLoadTime : Option Int := none
  lastActiveTime : Option Int := none
deriving DecidableEq

/-- `service.SchemaInfo` (the scanned schema-inventory row). -/
structure SchemaInfo where
  schemaName : String
  totalObjects : Int
  tableCount : Int
  indexCount : Int
  viewCount : Int
  procedureCount : Int
  functionCount : Int
  packageCount : Int
deriving DecidableEq

/-- `service.DatabaseInstance` (the scanned v$instance row). -/
structure DatabaseInstance where
  instanceName : String
  hostName : String
  version : String
  startupTime : Int
  status : String
  databaseStatus : String
  instanceRole : String
  uptimeDays : Rat
deriving DecidableEq

/-- `OracleService.auditQuerySuccess` (permission_repo.go:640): SUCCESS
entry keyed to the invoking identity, row count in the resource id. -/
def auditQuerySuccess (userID : String) (action : String) (count : Nat) : AuditLog :=
  { userID := some userID
    username := userID
    action := action
    resourceType := "ORACLE_QUERY"
    resourceID := some ("count:" ++ toString count)
    status := "SUCCESS" }

/-- `OracleService.auditQueryFailure` (permission_repo.go:653): FAILURE
entry keyed to the invoking identity, carrying the underlying error. -/
def auditQueryFailure (userID : String) (action : String) (errMsg : String) : AuditLog :=
  { userID := some userID
    username := userID
    action := action
    resourceType := "ORACLE_QUERY"
    status := "FAILURE"
    errorMessage := some errMsg }

/-- One result-set handed back by the database driver: either the query
itself failed, or it returned rows each of which the `rows.Scan` call
either decodes or rejects. -/
def QueryOutcome (α : Type) : Type :=
  Except String (List (Except String α))

/-- The `for rows.Next { rows.Scan }` loop: the first scan error aborts
with that row's error, otherwise all decoded records are accumulated. -/
def scanRows {α : Type} (scanMsg : String) (rows : List (Except String α)) :
    Except String (List α) :=
  match rows with
  | [] => Except.ok []
  | row :: rest =>
    match row with
    | Except.error e => Except.error (scanMsg ++ e)
    | Except.ok rec =>
      match scanRows scanMsg rest with
      | Except.error e => Except.error e
      | Except.ok recs => Except.ok (rec :: recs)

/-- The common body of every list-returning `OracleService` collector
(GetActiveSessions, GetAllSessions, GetSessionsBySchema,
GetBlockingSessions, GetTablespaces, GetTopSQLByElapsedTime,
GetTopSQLByCPU, GetSchemas): on a query error it audits FAILURE and
returns the wrapped error; on a scan error it returns the error with no
audit write; on success it audits SUCCESS with the row count. -/
def collectRows {α : Type} (action : String) (queryMsg : String) (scanMsg : String)
    (outcome : QueryOutcome α) (userID : String) (trail : List AuditLog) :
    Except String (List α) × List AuditLog :=
  match outcome with
  | Except.error e =>
    (Except.error (queryMsg ++ e), trail ++ [auditQueryFailure userID action e])
  | Except.ok rows =>
    match scanRows scanMsg rows with
    | Except.error e => (Except.error e, trail)
    | Except.ok recs =>
      (Except.ok recs, trail ++ [auditQuerySuccess userID action recs.length])

/-- `OracleService.GetActiveSessions` (permission_repo.go:225). -/
def getActiveSessions (outcome : QueryOutcome OracleSession) (userID : String)
    (trail : List AuditLog) : Except String (List OracleSession) × List AuditLog :=
  collectRows "GET_ACTIVE_SESSIONS" "failed to query active sessions: "
    "failed to scan session: " outcome userID trail

/-- `OracleService.GetAllSessions` (permission_repo.go:265). -/
def getAllSessions (outcome : QueryOutcome OracleSession) (userID : String)
    (trail : List AuditLog) : Except String (List OracleSession) × List AuditLog :=
  collectRows "GET_ALL_SESSIONS" "failed to query all sessions: "
    "failed to scan session: " outcome userID trail

/-- `OracleService.GetSessionsBySchema` (permission_repo.go:305). -/
def getSessionsBySchema (outcome : QueryOutcome OracleSession) (userID : String)
    (trail : List AuditLog) : Except String (List OracleSession) × List AuditLog :=
  collectRows "GET_SESSIONS_BY_SCHEMA" "failed to query sessions by schema: "
    "failed to scan session: " outcome userID trail

/-- `OracleService.GetBlockingSessions` (permission_repo.go:368). -/
def getBlockingSessions (outcome : QueryOutcome BlockingSession) (userID : String)
    (trail : List AuditLog) : Except String (List BlockingSession) × List AuditLog :=
  collectRows "GET_BLOCKING_SESSIONS" "failed to query blocking sessions: "
    "failed to scan blocking session: " outcome userID trail

/-- `OracleService.GetTablespaces` (permission_repo.go:423). -/
def getTablespaces (outcome : QueryOutcome Tablespace) (userID : String)
    (trail : List AuditLog) : Except String (List Tablespace) × List AuditLog :=
  collectRows "GET_TABLESPACES" "failed to query tablespaces: "
    "failed to scan tablespace: " outcome userID trail

/-- `OracleService.GetTopSQLByElapsedTime` (permission_repo.go:475). -/
def getTopSQLByElapsedTime (outcome : QueryOutcome SQLPerformance) (userID : String)
    (trail : List AuditLog) : Except String (List SQLPerformance) × List AuditLog :=
  collectRows "GET_TOP_SQL_BY_ELAPSED" "failed to query top SQL by elapsed time: "
    "failed to scan SQL performance: " outcome userID trail

/-- `OracleService.GetTopSQLByCPU` (permission_repo.go:511). -/
def getTopSQLByCPU (outcome : QueryOutcome SQLPerformance) (userID : String)
    (trail : List AuditLog) : Except String (List SQLPerformance) × List AuditLog :=
  collectRows "GET_TOP_SQL_BY_CPU" "failed to query top SQL by CPU: "
    "failed to scan SQL performance: " outcome userID trail

/-- `OracleService.GetSchemas` (permission_repo.go:605). -/
def getSchemas (outcome : QueryOutcome SchemaInfo) (userID : String)
    (trail : List AuditLog) : Except String (List SchemaInfo) × List AuditLog :=
  collectRows "GET_SCHEMAS" "failed to query schemas: "
    "failed to scan schema: " outcome userID trail

/-- The single-row outcome `QueryRowContext(...).Scan` can produce for the
instance query: `sql.ErrNoRows`, another scan/driver error, or a decoded
instance row. -/
inductive InstanceScan where
  | noRows
  | scanErr (message : String)
  | ok (instanceRow : DatabaseInstance)
deriving DecidableEq

/-- `OracleService.GetDatabaseInstance` (permission_repo.go:561): the
`sql.ErrNoRows` branch returns before any audit write; other errors audit
FAILURE; success audits SUCCESS with count 1. -/
def getDatabaseInstance (outcome : InstanceScan) (userID : String)
    (trail : List AuditLog) : Except String DatabaseInstance × List AuditLog :=
  match outcome with
  | InstanceScan.noRows =>
    (Except.error "no instance information found", trail)
  | InstanceScan.scanErr e =>
    (Except.error ("failed to query database instance: " ++ e),
     trail ++ [auditQueryFailure userID "GET_DATABASE_INSTANCE" e])
  | InstanceScan.ok inst =>
    (Except.ok inst, trail ++ [auditQuerySuccess userID "GET_DATABASE_INSTANCE" 1])

/-! ## Blocking-Chain Analyzer: `oracle.QueryBlockingSessions`
(src/unnamed/part_010, query constant at lines 390-414), the self-join of
v$session executed by the target database and scanned row-for-row by
`OracleService.GetBlockingSessions`. -/

/-- A v$session row restricted to the columns the blocking query reads.
`secondsInWait` is scanned into the non-nullable
`BlockedDurationSeconds int`, so it is an `Int` here. -/
structure VSession where
  sid : Int
  serial : Int
  username : Option String := none
  schemaname : Option String := none
  status : String := ""
  sqlID : Option String := none
  typ : String := "USER"
  blockingSession : Option Int := none
  waitClass : Option String := none
  event : Option String := none
  secondsInWait : Int := 0
deriving DecidableEq

/-- The SELECT list of `QueryBlockingSessions` for one joined pair;
`sqlTextOf` models the `LEFT JOIN v$sql` as a lookup of sql_id to
sql_text. -/
def mkBlockingRow (sqlTextOf : String → Option String)
    (blocking blocked : VSession) : BlockingSession :=
  { blockingSID := blocking.sid
    blockingSerial := blocking.serial
    blockingUser := blocking.username
    blockingSchema := blocking.schemaname
    blockingStatus := blocking.status
    blockingSQLID := blocking.sqlID
    blockingSQLText := blocking.sqlID.bind sqlTextOf
    blockedSID := blocked.sid
    blockedSerial := blocked.serial
    blockedUser := blocked.username
    blockedSchema := blocked.schemaname
    blockedWaitClass := blocked.waitClass
    blockedEvent := blocked.event
    blockedDurationSeconds := blocked.secondsInWait
    blockedSQLText := blocked.sqlID.bind sqlTextOf }

/-- The FROM/JOIN/WHERE of `QueryBlockingSessions`:
`FROM v$session blocking JOIN v$session blocked
 ON blocking.sid = blocked.blocking_session WHERE blocking.type = 'USER'`.
There is no `blocking.sid <> blocked.sid` condition. -/
def blockingJoin (sessions : List VSession) : List (VSession × VSession) :=
  (sessions.filter (fun blocking => blocking.typ == "USER")).flatMap
    (fun blocking =>
      (sessions.filter (fun blocked => blocked.blockingSession == some blocking.sid)).map
        (fun blocked => (blocking, blocked)))

/-- `QueryBlockingSessions` end to end: the join, the SELECT list, and
`ORDER BY blocked.seconds_in_wait DESC`. -/
def queryBlockingSessions (sqlTextOf : String → Option String)
    (sessions : List VSession) : List BlockingSession :=
  List.insertionSort (keyDesc BlockingSession.blockedDurationSeconds)
    ((blockingJoin sessions).map (fun pr => mkBlockingRow sqlTextOf pr.1 pr.2))

/-! ## Tablespace query: `oracle.QueryTablespaces`
(src/unnamed/part_010, lines 416-444). -/

/-- `ROUND(x, 2)`: Oracle decimal rounding to two places (half away from
zero; all sizes here are non-negative, where that agrees with `round`). -/
def round2 (q : Rat) : Rat :=
  (round (q * 100) : Int) / 100

/-- A dba_data_files row restricted to the queried columns. -/
structure DataFileRow where
  tablespaceName : String
  bytes : Rat
deriving DecidableEq

/-- A dba_free_space row restricted to the queried columns. -/
structure FreeSpaceRow where
  tablespaceName : String
  bytes : Rat
deriving DecidableEq

/-- A dba_tablespaces row restricted to the queried columns. -/
structure TablespaceInfoRow where
  tablespaceName : String
  status : String
  contents : String
deriving DecidableEq

/-- The `df` inline view: `SUM(bytes)/1024/1024` rounded, per tablespace. -/
def dfTotalSizeMB (dataFiles : List DataFileRow) (name : String) : Rat :=
  round2 (((dataFiles.filter (fun d => d.tablespaceName == name)).map
    DataFileRow.bytes).sum / 1024 / 1024)

/-- The `df` inline view datafile count per tablespace. -/
def dfDatafileCount (dataFiles : List DataFileRow) (name : String) : Int :=
  (dataFiles.filter (fun d => d.tablespaceName == name)).length

/-- The `fs` inline view: free MB per tablespace, `none` when the
tablespace has no dba_free_space rows (the LEFT JOIN misses). -/
def fsFreeSizeMB (freeSpace : List FreeSpaceRow) (name : String) : Option Rat :=
  if freeSpace.any (fun f => f.tablespaceName == name) then
    some (round2 (((freeSpace.filter (fun f => f.tablespaceName == name)).map
      FreeSpaceRow.bytes).sum / 1024 / 1024))
  else
    none

/-- One SELECT-list row of `QueryTablespaces` for a tablespace present in
both the `df` view and dba_tablespaces: `NVL(fs.free_size_mb, 0)`,
`used := total - free`, and
`usage := ROUND((total - free) / total * 100, 2)`. -/
def mkTablespaceRow (dataFiles : List DataFileRow) (freeSpace : List FreeSpaceRow)
    (info : TablespaceInfoRow) : Tablespace :=
  let total := dfTotalSizeMB dataFiles info.tablespaceName
  let free := (fsFreeSizeMB freeSpace info.tablespaceName).getD 0
  { name := info.tablespaceName
    totalSizeMB := total
    usedSizeMB := total - free
    freeSizeMB := free
    usagePercentage := round2 ((total - free) / total * 100)
    status := info.status
    contents := info.contents
    datafileCount := dfDatafileCount dataFiles info.tablespaceName }

/-- `QueryTablespaces` end to end: `GROUP BY tablespace_name` over
dba_data_files, inner join to dba_tablespaces, left join to the free-space
view, `ORDER BY usage_percentage DESC`. -/
def queryTablespaces (dataFiles : List DataFileRow) (freeSpace : List FreeSpaceRow)
    (tsTable : List TablespaceInfoRow) : List Tablespace :=
  List.insertionSort (keyDesc Tablespace.usagePercentage)
    (((dataFiles.map DataFileRow.tablespaceName).dedup).filterMap (fun name =>
      match tsTable.find? (fun t => t.tablespaceName == name) with
      | none => none
      | some info => some (mkTablespaceRow dataFiles freeSpace info)))

/-! ## Audit Sink persistence (src/unnamed/part_008,
`auditLogRepository`) -/

/-- `repository.safeString` (part_008:364): empty for nil, double quotes
escaped otherwise. -/
def safeString (s : Option String) : String :=
  match s with
  | none => ""
  | some v => v.replace "\"" "\\\""

/-- The metadata JSON `Create` builds (part_008:151). -/
def auditMetadata (resourceType : String) (resourceID oracleSchema : Option String) :
    String :=
  "\x7b\"resource_type\": \"" ++ resourceType ++ "\", \"resource_id\": \"" ++
    safeString resourceID ++ "\", \"oracle_schema\": \"" ++
    safeString oracleSchema ++ "\"\x7d"

/-- An audit.logs table row (schema in src/unnamed/part_010): the outcome
is persisted only as the boolean `success` column. -/
structure AuditRow where
  id : String
  userID : Option String
  username : String
  action : String
  target : String
  success : Bool
  metadata : String
  createdAt : Int
deriving DecidableEq

/-- `auditLogRepository.Create` (part_008:137): assigns a fresh id and
timestamp, converts the status to `success := (Status == "SUCCESS")`,
stores `ResourceType` as the target column, and serialises the rest into
the metadata JSON. -/
def auditCreate (log : AuditLog) (newID : String) (now : Int) : AuditRow :=
  { id := newID
    userID := log.userID
    username := log.username
    action := log.action
    target := log.resourceType
    success := log.status == "SUCCESS"
    metadata := auditMetadata log.resourceType log.resourceID log.oracleSchema
    createdAt := now }

/-- The row-to-struct conversion shared by `GetByID` and `List`
(part_008:205 and :299): the boolean comes back as SUCCESS or FAILURE and
the target column as the resource type; the columns not selected stay at
their zero values. -/
def rowToAuditLog (r : AuditRow) : AuditLog :=
  { id := r.id
    userID := r.userID
    username := r.username
    action := r.action
    resourceType := r.target
    status := if r.success then "SUCCESS" else "FAILURE"
    timestamp := r.createdAt }

/-- `auditLogRepository.GetByID` (part_008:175): the row with the given
primary key, converted; `none` models the `sql.ErrNoRows` branch. -/
def auditGetByID (store : List AuditRow) (id : String) : Option AuditLog :=
  (store.find? (fun r => r.id == id)).map rowToAuditLog

/-- `repository.AuditLogFilter` (src/unnamed/part_013). -/
structure AuditLogFilter where
  userID : Option String := none
  action : Option String := none
  resourceType : Option String := none
  status : Option String := none
  startTime : Option Int := none
  endTime : Option Int := none
  limit : Int := 0
  offset : Int := 0
deriving DecidableEq

/-- The WHERE clause `List` builds (part_008:227-256): one conjunct per
provided field — user_id, action, target, created_at lower and upper
bounds.  The filter's `status` field has no corresponding clause. -/
def listMatches (filter : AuditLogFilter) (r : AuditRow) : Bool :=
  (match filter.userID with
   | none => true
   | some u => r.userID == some u) &&
  (match filter.action with
   | none => true
   | some a => r.action == a) &&
  (match filter.resourceType with
   | none => true
   | some t => r.target == t) &&
  (match filter.startTime with
   | none => true
   | some s => decide (s ≤ r.createdAt)) &&
  (match filter.endTime with
   | none => true
   | some e => decide (r.createdAt ≤ e))

/-- `auditLogRepository.List` (part_008:217): conjunctive filter,
`ORDER BY created_at DESC`, then OFFSET and LIMIT when positive, and the
row conversion. -/
def auditList (store : List AuditRow) (filter : AuditLogFilter) : List AuditLog :=
  let rows := List.insertionSort (keyDesc AuditRow.createdAt)
    (store.filter (listMatches filter))
  let rows := if 0 < filter.offset then rows.drop filter.offset.toNat else rows
  let rows := if 0 < filter.limit then rows.take filter.limit.toNat else rows
  rows.map rowToAuditLog

/-- `auditLogRepository.Count` (part_008:313): the same conjunctive
filter, counted. -/
def auditCount (store : List AuditRow) (filter : AuditLogFilter) : Nat :=
  (store.filter (listMatches filter)).length

/-! ## Theorems -/

/-- Claim C10: for every user, the AND-combination check over an empty
permission list (`HasAllPermissions`, the guard's all-of variant) returns
true, while the OR-combination over an empty list (`HasAnyPermission`,
`RequireAnyPermission`) returns false / denies, for every permission set. -/
theorem c10_empty_permission_lists (db : AuthDB) (userID : String) (u : UserContext) :
    hasAllPermissions db userID [] = true ∧
    hasAnyPermission db userID [] = false ∧
    requireAnyPermission (some u) [] =
      Except.error (MwError.authz "insufficient permissions" "" "") :=
  ⟨rfl, rfl, rfl⟩

/-- Claim C5: validating any token strictly after its expires-at instant
never succeeds, and for a token whose method and signature are otherwise
valid the failure is the expired kind, distinguishable from the
invalid-token kind. -/
theorem c5_validate_after_expiry (secret : String) (now : Int) (tok : SignedToken)
    (hexp : tok.claims.expiresAt < now) :
    (∀ c, validateToken secret now tok ≠ Except.ok c) ∧
    (tok.method = SigningMethod.hs256 →
      tok.signature = hmacSign secret tok.claims →
      validateToken secret now tok = Except.error TokenError.expired) := by
  have hnot : ¬ now < tok.claims.expiresAt := not_lt.mpr (le_of_lt hexp)
  constructor
  · intro c
    unfold validateToken
    rcases hm : tok.method with _ | _ | _ <;> simp only
    · split
      · simp [hnot]
      · simp
    · split
      · simp [hnot]
      · simp
    · simp
  · intro hmeth hsig
    unfold validateToken
    rw [hmeth]
    simp only [hsig, if_pos rfl, hnot, if_false]
    simp [hnot]

/-- Witness claims for the expiry theorem, instantiated at a concrete
token expiring at instant 5 and validated at instant 10. -/
def witClaims : JWTClaims :=
  { userID := "u1"
    username := "alice"
    roles := ["DBA"]
    permissions := ["VIEW_SESSIONS"]
    expiresAt := 5
    issuedAt := 0
    issuer := "oracle-dba"
    subject := "alice" }

/-- Witness token for the expiry theorem: HS256-signed with secret "k". -/
def witToken : SignedToken :=
  { method := SigningMethod.hs256
    claims := witClaims
    signature := hmacSign "k" witClaims }

/-- Claim C5 witness: the concrete expired token is rejected with the
expired error kind. -/
theorem c5_validate_after_expiry_witness :
    validateToken "k" 10 witToken = Except.error TokenError.expired :=
  (c5_validate_after_expiry "k" 10 witToken (by decide)).2 rfl rfl

/-- Claim C6 counterexample: an audit entry written with outcome DENIED
(the RBAC deny entry) is read back by lookup-by-id with outcome FAILURE,
not DENIED — the Record/read-back round trip collapses the outcome. -/
theorem c6_denied_collapses_counterexample :
    (auditGetByID [auditCreate (auditAccessDenied "u1" "MANAGE_USERS") "id1" 7]
      "id1").map AuditLog.status = some "FAILURE" ∧
    (auditAccessDenied "u1" "MANAGE_USERS").status = "DENIED" ∧
    ("FAILURE" : String) ≠ "DENIED" := by
  refine ⟨?_, rfl, by decide⟩
  rfl

/-- Claim C6 amended: `Create` persists the outcome only as the boolean
success column (true exactly for SUCCESS), and both lookup-by-id and
`List` read the outcome back as SUCCESS for true and FAILURE for false —
so SUCCESS and FAILURE round-trip unchanged while DENIED is read back as
FAILURE. -/
theorem c6_outcome_roundtrip (log : AuditLog) (newID : String) (now : Int) :
    (auditCreate log newID now).success = (log.status == "SUCCESS") ∧
    (auditGetByID [auditCreate log newID now] newID).map AuditLog.status
      = some (if log.status == "SUCCESS" then "SUCCESS" else "FAILURE") ∧
    (auditList [auditCreate log newID now] {}).map AuditLog.status
      = [if log.status == "SUCCESS" then "SUCCESS" else "FAILURE"] := by
  refine ⟨rfl, ?_, ?_⟩
  · simp [auditGetByID, auditCreate, rowToAuditLog, List.find?]
  · simp [auditList, auditCreate, rowToAuditLog, listMatches, List.insertionSort,
      List.orderedInsert]

/-- Claim C1 counterexample: a deny from `CheckAccess` writes its single
audit entry with the missing permission in the error-message field and an
unset resource id — not with resource id equal to the permission, as the
claim states.  Concrete input: empty role assignment, required permission
VIEW_SQL. -/
theorem c1_deny_resource_id_counterexample :
    (checkAccess ⟨[⟨"p1", "VIEW_SQL", "d"⟩], [], [], []⟩ "u1" "VIEW_SQL" []).1
      ≠ Except.ok () ∧
    ((checkAccess ⟨[⟨"p1", "VIEW_SQL", "d"⟩], [], [], []⟩ "u1" "VIEW_SQL" []).2.map
      AuditLog.resourceID) = [none] ∧
    (none : Option String) ≠ some "VIEW_SQL" := by
  refine ⟨by decide, ?_, by decide⟩
  rfl

/-- Claim C1 amended: `CheckAccess` allows exactly when the required
permission code is among the user's resolved permissions; every deny
appends exactly one audit entry with outcome DENIED, actor id, resource
type PERMISSION, the missing permission recorded in the error-message
field, and the resource id left unset. -/
theorem c1_check_access (db : AuthDB) (userID p : String) (trail : List AuditLog) :
    ((checkAccess db userID p trail).1 = Except.ok () ↔
      ∃ perm ∈ getPermissionsByUserID db userID, perm.code = p) ∧
    ((checkAccess db userID p trail).1 = Except.ok () →
      (checkAccess db userID p trail).2 = trail) ∧
    ((checkAccess db userID p trail).1 ≠ Except.ok () →
      (checkAccess db userID p trail).2 = trail ++ [auditAccessDenied userID p] ∧
      (auditAccessDenied userID p).status = "DENIED" ∧
      (auditAccessDenied userID p).userID = some userID ∧
      (auditAccessDenied userID p).resourceType = "PERMISSION" ∧
      (auditAccessDenied userID p).errorMessage = some p ∧
      (auditAccessDenied userID p).resourceID = none) := by
  have hmem : hasPermission db userID p = true ↔
      ∃ perm ∈ getPermissionsByUserID db userID, perm.code = p := by
    simp [hasPermission, List.any_eq_true]
  by_cases h : hasPermission db userID p = true
  · refine ⟨?_, fun _ => ?_, fun hne => ?_⟩
    · simp [checkAccess, h, hmem.mp h]
    · simp [checkAccess, h]
    · exact absurd (by simp [checkAccess, h]) hne
  · refine ⟨?_, fun hok => ?_, fun _ => ?_⟩
    · simp only [checkAccess, if_neg h]
      constructor
      · intro hcontr
        exact absurd hcontr (by simp)
      · intro hex
        exact absurd (hmem.mpr hex) h
    · exact absurd hok (by simp [checkAccess, h])
    · exact ⟨by simp [checkAccess, h], rfl, rfl, rfl, rfl, rfl⟩

/-- Claim C1 witness: at the concrete empty-assignment database, the deny
appends exactly the DENIED entry described by the amended claim. -/
theorem c1_check_access_witness :
    (checkAccess ⟨[⟨"p1", "VIEW_SQL", "d"⟩], [], [], []⟩ "u1" "VIEW_SQL" []).2
      = [auditAccessDenied "u1" "VIEW_SQL"] :=
  ((c1_check_access ⟨[⟨"p1", "VIEW_SQL", "d"⟩], [], [], []⟩ "u1" "VIEW_SQL" []).2.2
    (by decide)).1

/-- Claim C3 counterexample: two collector outcomes after which no audit
record at all is written — a row-scan error in `GetActiveSessions` and the
`sql.ErrNoRows` result of `GetDatabaseInstance` — although the claim
requires exactly one record for every execution outcome. -/
theorem c3_missing_audit_counterexample :
    (getActiveSessions (Except.ok [Except.error "row scan failed"]) "u1" []).2
      = ([] : List AuditLog) ∧
    (getDatabaseInstance InstanceScan.noRows "u1" []).2 = ([] : List AuditLog) :=
  ⟨rfl, rfl⟩

/-- Claim C3 amended: each collector operation writes exactly one audit
record keyed to the invoking identity when the query itself fails
(FAILURE with the underlying error) or when every returned row scans
(SUCCESS with the row count) — but a row-scan error, and the empty
instance result of `GetDatabaseInstance`, return without writing any
audit record. -/
theorem c3_collector_audit {α : Type} (action queryMsg scanMsg : String)
    (outcome : QueryOutcome α) (userID : String) (trail : List AuditLog) :
    (∀ e, outcome = Except.error e →
      (collectRows action queryMsg scanMsg outcome userID trail).2
        = trail ++ [auditQueryFailure userID action e]) ∧
    (∀ rows recs, outcome = Except.ok rows →
      scanRows scanMsg rows = Except.ok recs →
      (collectRows action queryMsg scanMsg outcome userID trail).2
        = trail ++ [auditQuerySuccess userID action recs.length]) ∧
    (∀ rows e, outcome = Except.ok rows →
      scanRows scanMsg rows = Except.error e →
      (collectRows action queryMsg scanMsg outcome userID trail).2 = trail) ∧
    (getDatabaseInstance InstanceScan.noRows userID trail).2 = trail ∧
    (∀ e, (getDatabaseInstance (InstanceScan.scanErr e) userID trail).2
      = trail ++ [auditQueryFailure userID "GET_DATABASE_INSTANCE" e]) ∧
    (∀ inst, (getDatabaseInstance (InstanceScan.ok inst) userID trail).2
      = trail ++ [auditQuerySuccess userID "GET_DATABASE_INSTANCE" 1]) := by
  refine ⟨?_, ?_, ?_, rfl, fun e => rfl, fun inst => rfl⟩
  · intro e he
    subst he
    rfl
  · intro rows recs ho hs
    subst ho
    simp [collectRows, hs]
  · intro rows e ho hs
    subst ho
    simp [collectRows, hs]

/-- Claim C3 witness: at a concrete failed query the collector body
appends exactly the FAILURE entry. -/
theorem c3_collector_audit_witness :
    (collectRows "GET_ACTIVE_SESSIONS" "failed to query active sessions: "
      "failed to scan session: " (Except.error "ORA-12541" : QueryOutcome OracleSession)
      "u1" []).2 = [auditQueryFailure "u1" "GET_ACTIVE_SESSIONS" "ORA-12541"] :=
  (c3_collector_audit "GET_ACTIVE_SESSIONS" "failed to query active sessions: "
    "failed to scan session: " (Except.error "ORA-12541") "u1" []).1 "ORA-12541" rfl

/-- Claim C4: issuing a token at login and immediately validating it
yields claims whose permission set is exactly the distinct union of the
permission codes of every role assigned to the identity at issuance
time. -/
theorem c4_issue_then_validate (db : AuthDB) (secret issuer : String)
    (ttl now : Int) (userID username : String) (httl : 0 < ttl) :
    ∃ claims,
      validateToken secret now
        (loginIssue db secret issuer ttl now userID username).1 = Except.ok claims ∧
      ∀ c, c ∈ claims.permissions ↔
        ∃ p ∈ db.permissions, p.code = c ∧
          ∃ roleID, (userID, roleID) ∈ db.userRoles ∧
            (roleID, p.id) ∈ db.rolePermissions := by
  refine ⟨(loginIssue db secret issuer ttl now userID username).1.claims, ?_, ?_⟩
  · show validateToken _ _ _ = _
    unfold validateToken loginIssue generateJWT
    simp only
    rw [if_pos (show now < now + ttl by linarith)]
    simp
  · intro c
    have hperm : (loginIssue db secret issuer ttl now userID username).1.claims.permissions
        = (getPermissionsByUserID db userID).map Permission.code := rfl
    rw [hperm]
    unfold getPermissionsByUserID
    constructor
    · intro hc
      obtain ⟨p, hp, hpc⟩ := List.mem_map.mp hc
      have hp2 := (List.Perm.mem_iff (List.perm_insertionSort _ _)).mp hp
      obtain ⟨hpmem, hpred⟩ := List.mem_filter.mp hp2
      rw [List.any_eq_true] at hpred
      obtain ⟨rp, hrp, hrpb⟩ := hpred
      rcases rp with ⟨rpRole, rpPerm⟩
      rw [Bool.and_eq_true] at hrpb
      obtain ⟨h1, h2⟩ := hrpb
      rw [List.any_eq_true] at h2
      obtain ⟨ur, hur, hurb⟩ := h2
      rcases ur with ⟨urUser, urRole⟩
      rw [Bool.and_eq_true] at hurb
      obtain ⟨h3, h4⟩ := hurb
      have h1e : rpPerm = p.id := beq_iff_eq.mp h1
      have h3e : urUser = userID := beq_iff_eq.mp h3
      have h4e : urRole = rpRole := beq_iff_eq.mp h4
      have hur2 : (userID, rpRole) ∈ db.userRoles := by
        rw [← h3e, ← h4e]
        exact hur
      have hrp2 : (rpRole, p.id) ∈ db.rolePermissions := by
        rw [← h1e]
        exact hrp
      exact ⟨p, hpmem, hpc, rpRole, hur2, hrp2⟩
    · rintro ⟨p, hpmem, hpc, roleID, hur, hrp⟩
      refine List.mem_map.mpr ⟨p, ?_, hpc⟩
      refine (List.Perm.mem_iff (List.perm_insertionSort _ _)).mpr ?_
      refine List.mem_filter.mpr ⟨hpmem, ?_⟩
      rw [List.any_eq_true]
      refine ⟨(roleID, p.id), hrp, ?_⟩
      rw [Bool.and_eq_true]
      refine ⟨by simp, ?_⟩
      rw [List.any_eq_true]
      exact ⟨(userID, roleID), hur, by simp⟩

/-- Witness database for the issue/validate round trip: one user with one
role carrying one permission. -/
def roundTripDB : AuthDB :=
  { permissions := [⟨"pid1", "VIEW_SESSIONS", "view sessions"⟩]
    roles := [⟨"rid1", "DBA", "database admin", 0⟩]
    userRoles := [("u1", "rid1")]
    rolePermissions := [("rid1", "pid1")] }

/-- Claim C4 witness: the round trip at the concrete one-role database. -/
theorem c4_issue_then_validate_witness :
    ∃ claims,
      validateToken "s" 0
        (loginIssue roundTripDB "s" "oracle-dba" 3600 0 "u1" "alice").1
          = Except.ok claims ∧
      ∀ c, c ∈ claims.permissions ↔
        ∃ p ∈ roundTripDB.permissions, p.code = c ∧
          ∃ roleID, ("u1", roleID) ∈ roundTripDB.userRoles ∧
            (roleID, p.id) ∈ roundTripDB.rolePermissions :=
  c4_issue_then_validate roundTripDB "s" "oracle-dba" 3600 0 "u1" "alice" (by decide)

/-- Claim C8: with no pagination requested, `List` returns exactly the
stored entries satisfying the conjunction of every provided filter field
(actor id, action, resource type, start time, end time), converted by the
row mapping, and returns them ordered by timestamp descending. -/
theorem c8_audit_list_filter (store : List AuditRow) (filter : AuditLogFilter)
    (hlim : filter.limit ≤ 0) (hoff : filter.offset ≤ 0) :
    (∀ e, e ∈ auditList store filter ↔
      ∃ r ∈ store, e = rowToAuditLog r ∧
        (∀ u, filter.userID = some u → r.userID = some u) ∧
        (∀ a, filter.action = some a → r.action = a) ∧
        (∀ t, filter.resourceType = some t → r.target = t) ∧
        (∀ s, filter.startTime = some s → s ≤ r.createdAt) ∧
        (∀ t, filter.endTime = some t → r.createdAt ≤ t)) ∧
    List.Pairwise (fun e1 e2 => e2.timestamp ≤ e1.timestamp)
      (auditList store filter) := by
  have hmatch : ∀ r, listMatches filter r = true ↔
      ((∀ u, filter.userID = some u → r.userID = some u) ∧
       (∀ a, filter.action = some a → r.action = a) ∧
       (∀ t, filter.resourceType = some t → r.target = t) ∧
       (∀ s, filter.startTime = some s → s ≤ r.createdAt) ∧
       (∀ t, filter.endTime = some t → r.createdAt ≤ t)) := by
    intro r
    unfold listMatches
    rcases filter with ⟨fu, fa, ft, fst, fs, fe, lim, off⟩
    cases fu <;> cases fa <;> cases ft <;> cases fs <;> cases fe <;>
      simp [Bool.and_eq_true, beq_iff_eq, decide_eq_true_eq, and_assoc]
  have hlist : auditList store filter =
      (List.insertionSort (keyDesc AuditRow.createdAt)
        (store.filter (listMatches filter))).map rowToAuditLog := by
    have h1 : ¬ 0 < filter.offset := by omega
    have h2 : ¬ 0 < filter.limit := by omega
    simp [auditList, h1, h2]
  constructor
  · intro e
    rw [hlist]
    constructor
    · intro he
      obtain ⟨r, hr, hre⟩ := List.mem_map.mp he
      have hr2 := (List.Perm.mem_iff (List.perm_insertionSort _ _)).mp hr
      obtain ⟨hrmem, hrpred⟩ := List.mem_filter.mp hr2
      exact ⟨r, hrmem, hre.symm, (hmatch r).mp hrpred⟩
    · rintro ⟨r, hrmem, hre, hconds⟩
      refine List.mem_map.mpr ⟨r, ?_, hre.symm⟩
      refine (List.Perm.mem_iff (List.perm_insertionSort _ _)).mpr ?_
      exact List.mem_filter.mpr ⟨hrmem, (hmatch r).mpr hconds⟩
  · rw [hlist]
    have hsorted := List.sorted_insertionSort (keyDesc AuditRow.createdAt)
      (store.filter (listMatches filter))
    exact List.Pairwise.map rowToAuditLog (fun a b h => h) hsorted

/-- Claim C8 witness: a concrete two-row store filtered by actor u1 and a
time window returns only the matching entry, newest first. -/
theorem c8_audit_list_filter_witness :
    List.Pairwise (fun e1 e2 => e2.timestamp ≤ e1.timestamp)
      (auditList
        [⟨"a1", some "u1", "u1", "LOGIN", "AUTH", true, "", 100⟩,
         ⟨"a2", some "u2", "u2", "LOGIN", "AUTH", true, "", 200⟩]
        { userID := some "u1", startTime := some 0, endTime := some 150 }) :=
  (c8_audit_list_filter
    [⟨"a1", some "u1", "u1", "LOGIN", "AUTH", true, "", 100⟩,
     ⟨"a2", some "u2", "u2", "LOGIN", "AUTH", true, "", 200⟩]
    { userID := some "u1", startTime := some 0, endTime := some 150 }
    (by decide) (by decide)).2

/-- Scenario input for the tablespace query: USERS with one 1000 MB
datafile. -/
def usersDataFiles : List DataFileRow := [⟨"USERS", 1000 * 1048576⟩]

/-- Scenario input: 50 MB of free space in USERS. -/
def usersFreeSpace : List FreeSpaceRow := [⟨"USERS", 50 * 1048576⟩]

/-- Scenario input: the dba_tablespaces row for USERS. -/
def usersTsTable : List TablespaceInfoRow := [⟨"USERS", "ONLINE", "PERMANENT"⟩]

/-- The record the scenario expects: used 950 MB, usage 95.00%. -/
def usersRow : Tablespace :=
  { name := "USERS", totalSizeMB := 1000, usedSizeMB := 950, freeSizeMB := 50,
    usagePercentage := 95, status := "ONLINE", contents := "PERMANENT",
    datafileCount := 1 }

/-- Claim C7: every record the tablespace query returns satisfies
used + free = total (so certainly within the 0.01 MB tolerance) and
usage = round((total - free) / total * 100, 2); the 1000 MB / 50 MB free
scenario yields used 950 and usage 95.00. -/
theorem c7_tablespace_arithmetic (dataFiles : List DataFileRow)
    (freeSpace : List FreeSpaceRow) (tsTable : List TablespaceInfoRow) :
    (∀ row ∈ queryTablespaces dataFiles freeSpace tsTable,
      |row.usedSizeMB + row.freeSizeMB - row.totalSizeMB| ≤ 1 / 100 ∧
      row.usagePercentage
        = round2 ((row.totalSizeMB - row.freeSizeMB) / row.totalSizeMB * 100)) ∧
    queryTablespaces usersDataFiles usersFreeSpace usersTsTable = [usersRow] := by
  constructor
  · intro row hrow
    unfold queryTablespaces at hrow
    have hrow2 := (List.Perm.mem_iff (List.perm_insertionSort _ _)).mp hrow
    obtain ⟨name, _, hf⟩ := List.mem_filterMap.mp hrow2
    rcases hfind : List.find? (fun t => t.tablespaceName == name) tsTable with
      _ | info
    · rw [hfind] at hf
      exact absurd hf (by simp)
    · rw [hfind] at hf
      simp only [Option.some.injEq] at hf
      subst hf
      constructor
      · simp [mkTablespaceRow]
      · simp only [mkTablespaceRow]
  · have h1 : dfTotalSizeMB usersDataFiles "USERS" = 1000 := by
      unfold dfTotalSizeMB usersDataFiles
      norm_num [List.filter, round2, round_eq]
    have h2 : fsFreeSizeMB usersFreeSpace "USERS" = some 50 := by
      unfold fsFreeSizeMB usersFreeSpace
      norm_num [List.filter, List.any, round2, round_eq]
    have h3 : dfDatafileCount usersDataFiles "USERS" = 1 := by
      unfold dfDatafileCount usersDataFiles
      norm_num [List.filter]
    have hrow : mkTablespaceRow usersDataFiles usersFreeSpace
        ⟨"USERS", "ONLINE", "PERMANENT"⟩ = usersRow := by
      simp only [mkTablespaceRow, h1, h2, h3, Option.getD_some]
      unfold usersRow
      norm_num [round2, round_eq]
    unfold queryTablespaces usersDataFiles usersTsTable
    simp [List.dedup, List.find?, List.insertionSort, List.orderedInsert]
    exact hrow

/-- Claim C7 witness: the scenario record itself satisfies the tolerance
and the rounding equation. -/
theorem c7_tablespace_arithmetic_witness :
    |usersRow.usedSizeMB + usersRow.freeSizeMB - usersRow.totalSizeMB| ≤ 1 / 100 ∧
    usersRow.usagePercentage
      = round2 ((usersRow.totalSizeMB - usersRow.freeSizeMB)
          / usersRow.totalSizeMB * 100) :=
  (c7_tablespace_arithmetic usersDataFiles usersFreeSpace usersTsTable).1 usersRow
    (by
      rw [(c7_tablespace_arithmetic usersDataFiles usersFreeSpace usersTsTable).2]
      exact List.mem_singleton_self usersRow)

/-- The scenario's blocked session: sid 20 blocked by sid 10, waiting 45
seconds. -/
def blockedSess20 : VSession :=
  { sid := 20, serial := 1, blockingSession := some 10, secondsInWait := 45 }

/-- The scenario's blocking session: sid 10, not itself blocked. -/
def blockerSess10 : VSession :=
  { sid := 10, serial := 2, blockingSession := none }

/-- Claim C9: the blocking-session query orders its output by the blocked
session's wait duration descending, and the two-row scenario yields the
single relationship (blocker 10, blocked 20, duration 45). -/
theorem c9_blocking_order (sqlTextOf : String → Option String)
    (sessions : List VSession) :
    List.Pairwise
      (fun r1 r2 => r2.blockedDurationSeconds ≤ r1.blockedDurationSeconds)
      (queryBlockingSessions sqlTextOf sessions) ∧
    (queryBlockingSessions (fun _ => none) [blockedSess20, blockerSess10]).map
      (fun r => (r.blockingSID, r.blockedSID, r.blockedDurationSeconds))
      = [(10, 20, 45)] := by
  constructor
  · exact List.sorted_insertionSort
      (keyDesc BlockingSession.blockedDurationSeconds) _
  · decide

/-- Counting over a flatMap is the sum of the per-group counts. -/
theorem countP_flatMap_sum {α β : Type} (l : List α) (p : β → Bool)
    (f : α → List β) :
    List.countP p (l.flatMap f) = (l.map (fun a => List.countP p (f a))).sum := by
  induction l with
  | nil => simp
  | cons x xs ih => simp [List.flatMap_cons, List.countP_append, ih]

/-- Summing a per-element `if t a then c else 0` is `c` times the count of
elements satisfying `t`. -/
theorem sum_map_ite_count {α : Type} (l : List α) (c : Nat) (t : α → Bool) :
    (l.map (fun a => if t a then c else 0)).sum = c * l.countP t := by
  induction l with
  | nil => simp
  | cons x xs ih =>
    by_cases hx : t x
    · simp [List.countP_cons, hx, ih]
      ring
    · simp [List.countP_cons, hx, ih]

/-- With pairwise-distinct sids, a filtered session list contains the
session with a given sid at most once: the count is one exactly when some
session has that sid and passes the filter. -/
theorem countP_sid_of_nodup (ss : List VSession)
    (hnodup : (ss.map VSession.sid).Nodup) (p : VSession → Bool) (b : Int) :
    (ss.filter p).countP (fun s => s.sid == b)
      = if ss.any (fun s => s.sid == b && p s) then 1 else 0 := by
  induction ss with
  | nil => simp
  | cons s rest ih =>
    rw [List.map_cons, List.nodup_cons] at hnodup
    obtain ⟨hnot, hrest⟩ := hnodup
    by_cases hsid : s.sid == b
    · have hbe : s.sid = b := beq_iff_eq.mp hsid
      have hzero : (rest.filter p).countP (fun t => t.sid == b) = 0 := by
        refine List.countP_eq_zero.mpr ?_
        intro t ht hto
        have htb : t.sid = b := beq_iff_eq.mp hto
        exact hnot (hbe ▸ htb ▸ List.mem_map_of_mem VSession.sid
          (List.mem_of_mem_filter ht))
      have hanyrest : rest.any (fun t => t.sid == b && p t) = false := by
        rw [List.any_eq_false]
        intro t ht hto
        rw [Bool.and_eq_true] at hto
        have htb : t.sid = b := beq_iff_eq.mp hto.1
        exact hnot (hbe ▸ htb ▸ List.mem_map_of_mem VSession.sid ht)
      by_cases hp : p s
      · rw [List.filter_cons_of_pos hp, List.countP_cons, hzero]
        simp [hsid, hp, hanyrest]
      · rw [List.filter_cons_of_neg (by simp [hp]), hzero]
        simp [hsid, hp, hanyrest]
    · have hstep : (List.filter p (s :: rest)).countP (fun t => t.sid == b)
          = (rest.filter p).countP (fun t => t.sid == b) := by
        by_cases hp : p s
        · rw [List.filter_cons_of_pos hp, List.countP_cons]
          simp [hsid]
        · rw [List.filter_cons_of_neg (by simp [hp])]
      rw [hstep, ih hrest]
      simp [hsid]

/-- Claim C2 counterexample: a session whose blocking-session id equals
its own sid is emitted as a self-referencing relationship (blocker id =
blocked id) — the query has no `blocking.sid <> blocked.sid` condition
and drops nothing. -/
theorem c2_self_pair_counterexample :
    (queryBlockingSessions (fun _ => none)
      [{ sid := 1, serial := 1, blockingSession := some 1, secondsInWait := 3 }]).map
      (fun r => (r.blockingSID, r.blockedSID)) = [(1, 1)] := by
  decide

/-- Claim C2 amended: over any session set with pairwise-distinct sids,
the blocking query emits exactly one relationship per (blocker, blocked)
pair in which the blocked session's blocking-session id equals the
blocker's sid and the blocker is of type USER — including
self-referencing pairs, which are emitted rather than dropped. -/
theorem c2_one_relationship_per_pair (sqlTextOf : String → Option String)
    (ss : List VSession) (hnodup : (ss.map VSession.sid).Nodup) (a b : Int) :
    (queryBlockingSessions sqlTextOf ss).countP
      (fun r => r.blockingSID == a && r.blockedSID == b)
      = if (ss.any fun A => A.sid == a && A.typ == "USER") &&
           (ss.any fun B => B.sid == b && B.blockingSession == some a)
        then 1 else 0 := by
  unfold queryBlockingSessions
  rw [(List.perm_insertionSort _ _).countP_eq, List.countP_map]
  unfold blockingJoin
  rw [countP_flatMap_sum]
  have hterm : ∀ A : VSession,
      List.countP
        ((fun r => r.blockingSID == a && r.blockedSID == b) ∘
          (fun pr : VSession × VSession => mkBlockingRow sqlTextOf pr.1 pr.2))
        ((ss.filter (fun blocked => blocked.blockingSession == some A.sid)).map
          (fun blocked => (A, blocked)))
      = if A.sid == a then
          (ss.filter (fun B => B.blockingSession == some a)).countP
            (fun B => B.sid == b)
        else 0 := by
    intro A
    rw [List.countP_map]
    have hfun : (((fun r => r.blockingSID == a && r.blockedSID == b) ∘
        (fun pr : VSession × VSession => mkBlockingRow sqlTextOf pr.1 pr.2)) ∘
        (fun blocked => (A, blocked)))
        = fun B => A.sid == a && B.sid == b :=
      funext (fun B => by simp [Function.comp, mkBlockingRow])
    rw [hfun]
    by_cases hA : A.sid == a
    · have hAe : A.sid = a := beq_iff_eq.mp hA
      rw [if_pos hA]
      simp [hAe]
    · rw [if_neg (by simpa using hA)]
      refine List.countP_eq_zero.mpr ?_
      intro B hB hP
      rw [Bool.and_eq_true] at hP
      exact hA hP.1
  simp only [hterm]
  rw [sum_map_ite_count, countP_sid_of_nodup ss hnodup (fun B =>
    B.blockingSession == some a) b, countP_sid_of_nodup ss hnodup (fun A =>
    A.typ == "USER") a]
  by_cases h1 : ss.any (fun A => A.sid == a && A.typ == "USER") <;>
    by_cases h2 : ss.any (fun B => B.sid == b && B.blockingSession == some a) <;>
    simp [h1, h2]

/-- Claim C2 witness: at the concrete two-session scenario, the pair
(blocker 10, blocked 20) is emitted exactly once. -/
theorem c2_one_relationship_per_pair_witness :
    (queryBlockingSessions (fun _ => none) [blockedSess20, blockerSess10]).countP
      (fun r => r.blockingSID == 10 && r.blockedSID == 20)
      = if ([blockedSess20, blockerSess10].any fun A =>
              A.sid == 10 && A.typ == "USER") &&
           ([blockedSess20, blockerSess10].any fun B =>
              B.sid == 20 && B.blockingSession == some 10)
        then 1 else 0 :=
  c2_one_relationship_per_pair (fun _ => none) [blockedSess20, blockerSess10]
    (by decide) 10 20
